import Mathlib

/-!
Verification development for the ai-meeting-assistant repository: a shallow
embedding of its transcript/summary pipeline (src/App.tsx), its model-service
module (src/services/geminiService.ts) and its audio-recorder hook
(src/hooks/useAudioRecorder.ts), together with theorems settling the
specification claims about them.
-/

namespace MeetingAssistant

/-! ### Data model (src/types.ts) -/

/-- Status enum from src/types.ts: `IDLE, RECORDING, PROCESSING, DONE`. -/
inductive Status where
  | IDLE
  | RECORDING
  | PROCESSING
  | DONE
deriving DecidableEq, Repr

/-- TranscriptSegment interface from src/types.ts:
`{ speaker?: string; text: string; startTime: string; endTime: string }`.
The optional `speaker` is an `Option String` (absent field = `none`). -/
structure TranscriptSegment where
  speaker : Option String
  text : String
  startTime : String
  endTime : String
deriving DecidableEq, Repr

/-! ### Transcript formatting (src/App.tsx, `formatTranscript`) -/

/-- The per-segment speaker label: `segment.speaker ? \x7b...\x7d: ` in the source
uses JavaScript truthiness, so an absent speaker and an empty-string speaker
both yield the empty label. -/
def speakerLabel (segment : TranscriptSegment) : String :=
  match segment.speaker with
  | none => ""
  | some sp => if sp = "" then "" else sp ++ ": "

/-- One formatted line per segment, from the body of `formatTranscript`:
the template literal `[start - end] label text`. -/
def formatSegmentLine (segment : TranscriptSegment) : String :=
  "[" ++ segment.startTime ++ " - " ++ segment.endTime ++ "] "
    ++ speakerLabel segment ++ segment.text

/-- `formatTranscript(segments, forFile)` from src/App.tsx: maps each segment
to its line and joins with `\n` when `forFile` is true, `\n\n` otherwise. -/
def formatTranscript (segments : List TranscriptSegment) (forFile : Bool) : String :=
  let separator := if forFile then "\n" else "\n\n"
  String.intercalate separator (segments.map formatSegmentLine)

/-- `handleExport` for the transcript calls `formatTranscript(content, true)`. -/
def exportTranscriptText (segments : List TranscriptSegment) : String :=
  formatTranscript segments true

/-- `copyToClipboard` for the transcript calls `formatTranscript(content)`,
whose `forFile` parameter defaults to `false`. -/
def copyTranscriptText (segments : List TranscriptSegment) : String :=
  formatTranscript segments false

/-! ### Summarization client (src/services/geminiService.ts, `summarizeText`) -/

/-- The fixed string returned by `summarizeText` on an empty transcript. -/
def emptySummaryPlaceholder : String := "ไม่มีข้อความให้สรุป"

/-- The fixed message of the error thrown when the summarization request fails. -/
def summarizeFailMsg : String := "ไม่สามารถสร้างสรุปได้ โปรดลองอีกครั้ง"

/-- The part of the summarization prompt template literal before
`textToSummarize` (exact contents, including indentation whitespace). -/
def summaryPromptPrefix : String :=
  "\n        คุณคือผู้ช่วยประชุมมืออาชีพ หน้าที่ของคุณคือการสรุปข้อความที่ถอดเสียงจากการประชุม\n        โปรดอ่านข้อความต่อไปนี้และสรุปเป็นประเด็นสำคัญ (key takeaways) ในรูปแบบ bullet points ที่ชัดเจนและกระชับเป็นภาษาไทย\n\n        ข้อความที่จะสรุป:\n        ---\n        "

/-- The part of the summarization prompt template literal after
`textToSummarize`. -/
def summaryPromptSuffix : String :=
  "\n        ---\n\n        กรุณาสร้างสรุปการประชุม:\n        "

/-- The document built by `summarizeText`:
`transcript.map(segment => segment.text).join('\n')`. -/
def textToSummarize (transcript : List TranscriptSegment) : String :=
  String.intercalate "\n" (transcript.map TranscriptSegment.text)

/-- Outcome of one `ai.models.generateContent` call for summarization:
either the transport/model call throws, or it yields a response text. -/
abbrev NetOutcome := Except Unit String

/-- Observable behaviour of one `summarizeText` invocation: the value
returned or error thrown, whether a network request was issued, and the
prompt sent when one was. -/
structure SummarizeRun where
  result : Except String String
  networkCalled : Bool
  promptSent : Option String
deriving Repr

/-- `summarizeText` from src/services/geminiService.ts, parameterised by the
outcome `net` the hosted model would give to the request. An empty transcript
short-circuits before any request; otherwise the prompt embedding
`textToSummarize` is sent, the response text is returned, and a thrown
transport error is re-thrown as the fixed `summarizeFailMsg`. -/
def summarizeText (transcript : List TranscriptSegment) (net : NetOutcome) :
    SummarizeRun :=
  if transcript.length = 0 then
    { result := Except.ok emptySummaryPlaceholder
      networkCalled := false
      promptSent := none }
  else
    let prompt := summaryPromptPrefix ++ textToSummarize transcript ++ summaryPromptSuffix
    match net with
    | Except.ok t =>
        { result := Except.ok t, networkCalled := true, promptSent := some prompt }
    | Except.error _ =>
        { result := Except.error summarizeFailMsg
          networkCalled := true
          promptSent := some prompt }

/-! ### Transcription client (src/services/geminiService.ts, `transcribeAudio`) -/

/-- The fixed message of the error thrown when anything inside
`transcribeAudio` throws (transport failure or `JSON.parse` failure). -/
def transcribeFailMsg : String :=
  "ไม่สามารถถอดเสียงได้ อาจเกิดจากไฟล์เสียงไม่ชัดเจนหรือมีข้อผิดพลาดในการเชื่อมต่อ โปรดลองอีกครั้ง"

/-- JSON values, modelling what `JSON.parse` can produce from the hosted
model's response text. -/
inductive Json where
  | null
  | bool (b : Bool)
  | num (n : Int)
  | str (s : String)
  | arr (elements : List Json)
  | obj (fields : List (String × Json))

/-- Outcome of the transcription request as `transcribeAudio` observes it:
the request (or audio encoding) throws, the response text fails `JSON.parse`,
or it parses to a JSON value. -/
inductive TranscribeResponse where
  | transportError
  | invalidJson
  | parsed (j : Json)

/-- `transcribeAudio` from src/services/geminiService.ts: everything sits in
one `try` block, so a transport error or a `JSON.parse` failure is re-thrown
as the fixed `transcribeFailMsg`; a successfully parsed JSON value is returned
as-is (`return jsonResponse as TranscriptSegment[]` is a type assertion, not a
runtime check), whatever its shape. -/
def transcribeAudio : TranscribeResponse → Except String Json
  | TranscribeResponse.transportError => Except.error transcribeFailMsg
  | TranscribeResponse.invalidJson => Except.error transcribeFailMsg
  | TranscribeResponse.parsed j => Except.ok j

/-- Whether a JSON value is one transcript-segment object under
`transcriptSchema` from src/services/geminiService.ts: an object whose
`text`, `startTime`, `endTime` fields are present strings and whose
`speaker` field, when present, is a string. -/
def segmentConforms : Json → Bool
  | Json.obj fields =>
      (match fields.lookup "text" with
       | some (Json.str _) => true
       | _ => false) &&
      (match fields.lookup "startTime" with
       | some (Json.str _) => true
       | _ => false) &&
      (match fields.lookup "endTime" with
       | some (Json.str _) => true
       | _ => false) &&
      (match fields.lookup "speaker" with
       | none => true
       | some (Json.str _) => true
       | some _ => false)
  | _ => false

/-- Whether a JSON value conforms to `transcriptSchema`: an array all of
whose elements are conforming segment objects. -/
def conformsToTranscriptSchema : Json → Bool
  | Json.arr elements => elements.all segmentConforms
  | _ => false

/-! ### Pipeline controller (src/App.tsx, `App` / `handleProcessAudio`) -/

/-- The React state of `App`: the six `useState` variables. -/
structure AppState where
  status : Status
  transcript : List TranscriptSegment
  summary : String
  appError : String
  copiedTranscript : Bool
  copiedSummary : Bool
deriving DecidableEq, Repr

/-- The initial `useState` values of `App`. -/
def initialState : AppState :=
  { status := Status.IDLE
    transcript := []
    summary := ""
    appError := ""
    copiedTranscript := false
    copiedSummary := false }

/-- `resetState` from src/App.tsx: clears transcript, summary, error and the
copied flags and sets status to `IDLE`. -/
def resetState (s : AppState) : AppState :=
  { s with
    transcript := []
    summary := ""
    appError := ""
    copiedTranscript := false
    copiedSummary := false
    status := Status.IDLE }

/-- The summary string set by `handleProcessAudio` when the transcription
result is empty (the `else` branch, which does not call `summarizeText`). -/
def pipelineEmptySummary : String :=
  "ไม่สามารถสร้างสรุปได้เนื่องจากไม่มีข้อความที่ถอดเสียง"

/-- The error message composed in the `catch` block of `handleProcessAudio`:
`เกิดข้อผิดพลาดระหว่างการประมวลผล: ` followed by the thrown error's message. -/
def processErrMsg (m : String) : String :=
  "เกิดข้อผิดพลาดระหว่างการประมวลผล: " ++ m

/-- Outcome of the `transcribeAudio` call as `handleProcessAudio` observes it:
either it throws (always with the fixed `transcribeFailMsg`), or it returns a
transcript. -/
abbrev TranscribeOutcome := Except Unit (List TranscriptSegment)

/-- The sequence of states `App` passes through during one
`handleProcessAudio(blob)` run, in order of the `setState` calls:
`resetState`, then status `PROCESSING`, then — following the `try` block —
the transcript result, the summary (from `summarizeText` when the transcript
is non-empty, the fixed `pipelineEmptySummary` otherwise) and status `DONE`;
or — in the `catch` block — the composed error message and status `IDLE`. -/
def runTrace (s : AppState) (tr : TranscribeOutcome) (net : NetOutcome) :
    List AppState :=
  let s1 := resetState s
  let s2 := { s1 with status := Status.PROCESSING }
  match tr with
  | Except.error _ =>
      let s3 := { s2 with appError := processErrMsg transcribeFailMsg }
      let s4 := { s3 with status := Status.IDLE }
      [s1, s2, s3, s4]
  | Except.ok t =>
      let s3 := { s2 with transcript := t }
      if t.length > 0 then
        match (summarizeText t net).result with
        | Except.ok r =>
            let s4 := { s3 with summary := r }
            let s5 := { s4 with status := Status.DONE }
            [s1, s2, s3, s4, s5]
        | Except.error e =>
            let s4 := { s3 with appError := processErrMsg e }
            let s5 := { s4 with status := Status.IDLE }
            [s1, s2, s3, s4, s5]
      else
        let s4 := { s3 with summary := pipelineEmptySummary }
        let s5 := { s4 with status := Status.DONE }
        [s1, s2, s3, s4, s5]

/-- The state `App` holds after one `handleProcessAudio` run. -/
def runFinal (s : AppState) (tr : TranscribeOutcome) (net : NetOutcome) :
    AppState :=
  (runTrace s tr net).getLastD (resetState s)

/-- Whether `handleProcessAudio` reaches its `summarizeText` call:
only when the transcription call returned a non-empty transcript
(`transcriptResult && transcriptResult.length > 0`). -/
def runSummarizeInvoked (tr : TranscribeOutcome) : Bool :=
  match tr with
  | Except.error _ => false
  | Except.ok t => decide (t.length > 0)

/-- Whether `App` renders the result cards: the JSX condition
`status === Status.DONE && transcript.length > 0`. -/
def showsResults (s : AppState) : Bool :=
  match s.status with
  | Status.DONE => decide (s.transcript.length > 0)
  | _ => false

/-- States of `App` reachable from its initial state through
`handleProcessAudio` runs, counting every intermediate state of a run. -/
inductive Reachable : AppState → Prop where
  | init : Reachable initialState
  | run {s r : AppState} (tr : TranscribeOutcome) (net : NetOutcome) :
      Reachable s → r ∈ runTrace s tr net → Reachable r

/-! ### Audio recorder (src/hooks/useAudioRecorder.ts, `useAudioRecorder`) -/

/-- An encoded audio chunk delivered by a `dataavailable` event, modelled as
its byte contents; `size` is its length. -/
abbrev Chunk := List Nat

/-- State of the `useAudioRecorder` hook: the two `useState` values, the two
refs (`audioChunksRef`, and whether `mediaRecorderRef` is non-null), and
whether the microphone-permission alert has been shown. The delivered
`audioBlob` is modelled as the ordered list of chunks it was assembled from. -/
structure RecorderState where
  isRecording : Bool
  audioBlob : Option (List Chunk)
  audioChunks : List Chunk
  hasRecorder : Bool
  micAlert : Bool
deriving DecidableEq, Repr

/-- Initial hook state: not recording, no blob, empty chunk buffer, null
recorder ref. -/
def initialRecorderState : RecorderState :=
  { isRecording := false
    audioBlob := none
    audioChunks := []
    hasRecorder := false
    micAlert := false }

/-- `startRecording`, parameterised by whether `getUserMedia` succeeds. On
success it sets `isRecording` to true, clears `audioBlob` and the chunk
buffer, and installs a fresh `MediaRecorder`; on failure (`getUserMedia`
throws before any of that runs) the `catch` block only shows the
microphone-permission alert. -/
def startRecording (s : RecorderState) (micGranted : Bool) : RecorderState :=
  if micGranted then
    { s with
      isRecording := true
      audioBlob := none
      audioChunks := []
      hasRecorder := true }
  else
    { s with micAlert := true }

/-- The `dataavailable` listener: returns unchanged when `event.data` is
undefined or has size 0, otherwise appends the chunk to the buffer. -/
def onDataAvailable (s : RecorderState) (data : Option Chunk) : RecorderState :=
  match data with
  | none => s
  | some c => if c.length = 0 then s else { s with audioChunks := s.audioChunks ++ [c] }

/-- The `stop` listener: assembles the buffered chunks into a Blob and
delivers it as `audioBlob`. -/
def onStopEvent (s : RecorderState) : RecorderState :=
  { s with audioBlob := some s.audioChunks }

/-- `stopRecording`: when `mediaRecorderRef.current` is non-null, stops it
(which later fires the `stop` event) and sets `isRecording` to false;
otherwise a no-op. -/
def stopRecording (s : RecorderState) : RecorderState :=
  if s.hasRecorder then { s with isRecording := false } else s

/-- The chunks the `dataavailable` listener keeps: drops an undefined
`event.data` and a chunk of size 0. -/
def keepChunk (data : Option Chunk) : Option Chunk :=
  match data with
  | none => none
  | some c => if c.length = 0 then none else some c

/-! ### Sample data used in concrete instances -/

/-- The segment of spec Scenario A: no speaker, Thai greeting text. -/
def segA : TranscriptSegment :=
  { speaker := none, text := "สวัสดี", startTime := "00:00:00", endTime := "00:00:02" }

/-- A segment with an identified speaker, as in spec Scenario D. -/
def segB : TranscriptSegment :=
  { speaker := some "ผู้พูด 1", text := "ทดสอบ", startTime := "00:00:03", endTime := "00:00:05" }

/-! ### Helper lemmas -/

/-- Folding the `dataavailable` listener over a list of delivered events
appends exactly the kept chunks, in arrival order, to the buffer. -/
theorem foldl_onDataAvailable_chunks (ds : List (Option Chunk)) (s : RecorderState) :
    (ds.foldl onDataAvailable s).audioChunks = s.audioChunks ++ ds.filterMap keepChunk := by
  induction ds generalizing s with
  | nil => simp
  | cons d ds ih =>
    cases d with
    | none => simp [onDataAvailable, keepChunk, ih]
    | some c =>
      by_cases hc : c.length = 0
      · simp [onDataAvailable, keepChunk, hc, ih]
      · simp [onDataAvailable, keepChunk, hc, ih]

/-- `stopRecording` does not touch the chunk buffer. -/
theorem stopRecording_audioChunks (s : RecorderState) :
    (stopRecording s).audioChunks = s.audioChunks := by
  unfold stopRecording
  split <;> rfl

/-- Every state a `handleProcessAudio` run passes through has status
`IDLE`, `PROCESSING` or `DONE`. -/
theorem runTrace_status (s : AppState) (tr : TranscribeOutcome) (net : NetOutcome) :
    ∀ x ∈ runTrace s tr net,
      x.status = Status.IDLE ∨ x.status = Status.PROCESSING ∨ x.status = Status.DONE := by
  intro x hx
  cases tr with
  | error u =>
    simp [runTrace] at hx
    rcases hx with rfl | rfl | rfl | rfl <;> simp [resetState]
  | ok t =>
    by_cases ht : t.length > 0
    · have hne : t.length ≠ 0 := Nat.pos_iff_ne_zero.mp ht
      cases net with
      | ok r =>
        simp [runTrace, summarizeText, ht, hne] at hx
        rcases hx with rfl | rfl | rfl | rfl | rfl <;> simp [resetState]
      | error u =>
        simp [runTrace, summarizeText, ht, hne] at hx
        rcases hx with rfl | rfl | rfl | rfl | rfl <;> simp [resetState]
    · simp [runTrace, ht] at hx
      rcases hx with rfl | rfl | rfl | rfl | rfl <;> simp [resetState]

/-! ### Claim theorems -/

/-- C5: `summarizeText` applied to an empty Transcript returns the fixed
placeholder string and performs no network call — no request is issued and no
prompt is sent. -/
theorem c5_summarize_empty_short_circuit (net : NetOutcome) :
    (summarizeText [] net).result = Except.ok emptySummaryPlaceholder ∧
    (summarizeText [] net).networkCalled = false ∧
    (summarizeText [] net).promptSent = none :=
  ⟨rfl, rfl, rfl⟩

/-- C6: for every non-empty Transcript, the document embedded in the
summarization prompt is the segment texts joined by single newlines, in
Transcript order, with no segment omitted, duplicated or reordered (the
joined list is the element-wise image of the Transcript). -/
theorem c6_prompt_document_order (t : List TranscriptSegment) (net : NetOutcome)
    (h : t ≠ []) :
    (summarizeText t net).promptSent =
      some (summaryPromptPrefix
        ++ String.intercalate "\n" (t.map TranscriptSegment.text)
        ++ summaryPromptSuffix) ∧
    (t.map TranscriptSegment.text).length = t.length := by
  have hne : t.length ≠ 0 := fun hh => h (List.length_eq_zero.mp hh)
  refine ⟨?_, by simp⟩
  cases net <;> simp [summarizeText, textToSummarize, hne]

/-- C6 witness: the prompt sent for the one-segment Transcript `[segA]`
embeds exactly that segment's text. -/
theorem c6_prompt_document_order_witness :
    (summarizeText [segA] (Except.ok "ok")).promptSent =
      some (summaryPromptPrefix
        ++ String.intercalate "\n" ([segA].map TranscriptSegment.text)
        ++ summaryPromptSuffix) ∧
    ([segA].map TranscriptSegment.text).length = [segA].length :=
  c6_prompt_document_order [segA] (Except.ok "ok") (by simp)

/-- C7: each segment formats to `[start - end] speaker: text` when a speaker
is present (non-empty) and `[start - end] text` otherwise, as a pure function
of the segment's fields; the exported text joins these lines with single
newlines and the copied text with double newlines, differing in nothing else;
and Scenario A's segment formats to `[00:00:00 - 00:00:02] สวัสดี`. -/
theorem c7_format_transcript :
    (∀ segs : List TranscriptSegment,
        exportTranscriptText segs = String.intercalate "\n" (segs.map formatSegmentLine) ∧
        copyTranscriptText segs = String.intercalate "\n\n" (segs.map formatSegmentLine)) ∧
    (∀ seg : TranscriptSegment, ∀ sp : String, seg.speaker = some sp → sp ≠ "" →
        formatSegmentLine seg =
          "[" ++ seg.startTime ++ " - " ++ seg.endTime ++ "] " ++ sp ++ ": " ++ seg.text) ∧
    (∀ seg : TranscriptSegment, seg.speaker = none →
        formatSegmentLine seg =
          "[" ++ seg.startTime ++ " - " ++ seg.endTime ++ "] " ++ seg.text) ∧
    formatSegmentLine segA = "[00:00:00 - 00:00:02] สวัสดี" := by
  refine ⟨fun segs => ⟨rfl, rfl⟩, ?_, ?_, rfl⟩
  · intro seg sp hsp hne
    simp [formatSegmentLine, speakerLabel, hsp, hne, String.append_assoc]
  · intro seg hsp
    simp [formatSegmentLine, speakerLabel, hsp]

/-- C7 witness: the speaker-labelled segment `segB` formats with the
`speaker: ` prefix. -/
theorem c7_format_transcript_witness :
    formatSegmentLine segB =
      "[" ++ segB.startTime ++ " - " ++ segB.endTime ++ "] " ++ "ผู้พูด 1" ++ ": " ++ segB.text :=
  c7_format_transcript.2.1 segB "ผู้พูด 1" rfl (by decide)

/-- C2 counterexample: the well-formed JSON value `\x7b\x7d` (an empty object)
violates the transcript schema, yet `transcribeAudio` returns it instead of
failing — refuting that a schema-violating JSON response is rejected. -/
theorem c2_schema_counterexample :
    transcribeAudio (TranscribeResponse.parsed (Json.obj [])) = Except.ok (Json.obj []) ∧
    conformsToTranscriptSchema (Json.obj []) = false :=
  ⟨rfl, rfl⟩

/-- C2 amended: `transcribeAudio` fails — always with the fixed
transcription-failure message, returning no partial Transcript — exactly when
the response is a transport error or is not valid JSON; a response that
parses as JSON is returned as-is, without client-side schema validation. -/
theorem c2_transcribe_failure_conditions :
    (∀ r : TranscribeResponse,
        (∃ e, transcribeAudio r = Except.error e) ↔
          (r = TranscribeResponse.transportError ∨ r = TranscribeResponse.invalidJson)) ∧
    (∀ r : TranscribeResponse, ∀ e : String,
        transcribeAudio r = Except.error e → e = transcribeFailMsg) ∧
    (∀ j : Json, transcribeAudio (TranscribeResponse.parsed j) = Except.ok j) := by
  refine ⟨?_, ?_, fun j => rfl⟩
  · intro r
    cases r <;> simp [transcribeAudio]
  · intro r e h
    cases r <;> simp [transcribeAudio] at h
    · exact h.symm
    · exact h.symm

/-- C2 witness: a transport error yields exactly the fixed
transcription-failure message. -/
theorem c2_transcribe_failure_conditions_witness :
    transcribeFailMsg = transcribeFailMsg :=
  c2_transcribe_failure_conditions.2.1 TranscribeResponse.transportError transcribeFailMsg rfl

/-- C8: when microphone access is denied, `startRecording` only raises the
permission alert — `isRecording` is unchanged (in particular stays false when
it was false), no `AudioPayload` is produced and the chunk buffer is
untouched; and recording state becomes active on the success path. -/
theorem c8_mic_denied (s : RecorderState) :
    (startRecording s false).micAlert = true ∧
    (startRecording s false).isRecording = s.isRecording ∧
    (startRecording s false).audioBlob = s.audioBlob ∧
    (startRecording s false).audioChunks = s.audioChunks ∧
    (s.isRecording = false → (startRecording s false).isRecording = false) ∧
    (startRecording s true).isRecording = true :=
  ⟨rfl, rfl, rfl, rfl, fun h => h, rfl⟩

/-- C8 witness: starting from the initial hook state with microphone denied,
recording stays inactive. -/
theorem c8_mic_denied_witness :
    (startRecording initialRecorderState false).isRecording = false :=
  (c8_mic_denied initialRecorderState).2.2.2.2.1 rfl

/-- C10: `startRecording` clears the previously delivered blob and empties
the chunk buffer, and after any sequence of `dataavailable` events followed
by `stopRecording` and the recorder's `stop` event, the delivered blob is
assembled from exactly the kept (defined, non-empty) chunks of the current
cycle, in arrival order — independent of any earlier cycle's state. -/
theorem c10_blob_from_current_cycle (s : RecorderState) (ds : List (Option Chunk)) :
    (onStopEvent (stopRecording (ds.foldl onDataAvailable (startRecording s true)))).audioBlob
      = some (ds.filterMap keepChunk) ∧
    (startRecording s true).audioBlob = none ∧
    (startRecording s true).audioChunks = [] := by
  refine ⟨?_, rfl, rfl⟩
  simp [onStopEvent, stopRecording_audioChunks, foldl_onDataAvailable_chunks, startRecording]

/-- C9: across all reachable states of `App` — including every intermediate
state of a `handleProcessAudio` run — the pipeline status is one of `IDLE`,
`PROCESSING`, `DONE`; the `RECORDING` value of the status enumeration is
never assigned to it. -/
theorem c9_status_invariant (s : AppState) (h : Reachable s) :
    (s.status = Status.IDLE ∨ s.status = Status.PROCESSING ∨ s.status = Status.DONE) ∧
    s.status ≠ Status.RECORDING := by
  have hmain : s.status = Status.IDLE ∨ s.status = Status.PROCESSING ∨
      s.status = Status.DONE := by
    induction h with
    | init => exact Or.inl rfl
    | run tr net hr hmem ih => exact runTrace_status _ tr net _ hmem
  refine ⟨hmain, ?_⟩
  rcases hmain with h1 | h1 | h1 <;> simp [h1]

/-- C9 witness: the invariant holds at the initial state. -/
theorem c9_status_invariant_witness :
    (initialState.status = Status.IDLE ∨ initialState.status = Status.PROCESSING ∨
      initialState.status = Status.DONE) ∧
    initialState.status ≠ Status.RECORDING :=
  c9_status_invariant initialState Reachable.init

/-- C4: when the transcription call fails, the run makes no summarization
call, stores no Summary and no Transcript, and ends at `IDLE` with a
non-empty error message containing the transcription-failure notice. -/
theorem c4_transcription_failure (s : AppState) (net : NetOutcome) :
    (runFinal s (Except.error ()) net).status = Status.IDLE ∧
    (runFinal s (Except.error ()) net).appError = processErrMsg transcribeFailMsg ∧
    (runFinal s (Except.error ()) net).appError ≠ "" ∧
    (∃ a b, (runFinal s (Except.error ()) net).appError = a ++ transcribeFailMsg ++ b) ∧
    (runFinal s (Except.error ()) net).transcript = [] ∧
    (runFinal s (Except.error ()) net).summary = "" ∧
    runSummarizeInvoked (Except.error ()) = false := by
  refine ⟨rfl, rfl, ?_, ⟨"เกิดข้อผิดพลาดระหว่างการประมวลผล: ", "", ?_⟩, rfl, rfl, rfl⟩
  · intro hcontra
    have : processErrMsg transcribeFailMsg = "" := hcontra
    simp [processErrMsg, transcribeFailMsg] at this
  · show processErrMsg transcribeFailMsg =
      "เกิดข้อผิดพลาดระหว่างการประมวลผล: " ++ transcribeFailMsg ++ ""
    simp [processErrMsg]

/-- C3 counterexample: a run whose transcription succeeds with an empty
Transcript stores the `App` placeholder `ไม่สามารถสร้างสรุปได้เนื่องจากไม่มีข้อความที่ถอดเสียง`
as its Summary, which is a different string from the claimed
`ไม่มีข้อความให้สรุป` (that one is the short-circuit value of `summarizeText`,
never reached on this path). -/
theorem c3_placeholder_counterexample :
    (runFinal initialState (Except.ok []) (Except.ok "response")).summary
      = pipelineEmptySummary ∧
    pipelineEmptySummary ≠ emptySummaryPlaceholder :=
  ⟨rfl, by decide⟩

/-- C3 amended: a run whose transcription succeeds with an empty Transcript
stores the fixed placeholder `pipelineEmptySummary` (the `App` string, not
`summarizeText`'s) as the run's Summary, never reaches the `summarizeText`
call (so no summarization network call is issued), and ends in `DONE`. -/
theorem c3_empty_transcript_run (s : AppState) (net : NetOutcome) :
    (runFinal s (Except.ok []) net).summary = pipelineEmptySummary ∧
    (runFinal s (Except.ok []) net).status = Status.DONE ∧
    (runFinal s (Except.ok []) net).transcript = [] ∧
    runSummarizeInvoked (Except.ok []) = false :=
  ⟨rfl, rfl, rfl, rfl⟩

/-- C1 counterexample: starting from the initial state, a run whose
transcription succeeds with one segment and whose summarization then fails
ends with the stored transcript still holding that segment — it is not reset
to the empty value, refuting the claim that the run's transcript is
discarded. -/
theorem c1_retained_transcript_counterexample :
    (runFinal initialState (Except.ok [segA]) (Except.error ())).status = Status.IDLE ∧
    (runFinal initialState (Except.ok [segA]) (Except.error ())).transcript = [segA] ∧
    [segA] ≠ ([] : List TranscriptSegment) :=
  ⟨rfl, rfl, by decide⟩

/-- C1 amended: on any failing run (transcription fails, or summarization
fails after a non-empty transcription), the pipeline sets a non-empty
human-readable error message, resets status to `IDLE`, leaves the stored
summary at its cleared empty value, and renders no results; the stored
transcript is empty when transcription failed, but when summarization fails
after transcription succeeded it retains the run's transcript (only the
rendering gate, not a reset, keeps it from being shown). -/
theorem c1_failure_handling (s : AppState) (tr : TranscribeOutcome) (net : NetOutcome)
    (h : tr = Except.error () ∨
      ∃ t, tr = Except.ok t ∧ t ≠ [] ∧ net = Except.error ()) :
    (runFinal s tr net).status = Status.IDLE ∧
    (runFinal s tr net).appError ≠ "" ∧
    (runFinal s tr net).summary = "" ∧
    showsResults (runFinal s tr net) = false ∧
    (tr = Except.error () → (runFinal s tr net).transcript = []) ∧
    (∀ t, tr = Except.ok t → (runFinal s tr net).transcript = t) := by
  have herr : ∀ m : String, processErrMsg m ≠ "" := by
    intro m hcontra
    have hlen := congrArg String.length hcontra
    simp [processErrMsg, String.length_append] at hlen
    exact absurd hlen.1 (by decide)
  rcases h with rfl | ⟨t, rfl, ht, rfl⟩
  · exact ⟨rfl, herr transcribeFailMsg, rfl, rfl, fun _ => rfl,
      fun t hco => Except.noConfusion hco⟩
  · have hpos : t.length > 0 := by
      cases t with
      | nil => exact absurd rfl ht
      | cons a l => simp
    have hne : t.length ≠ 0 := Nat.pos_iff_ne_zero.mp hpos
    have hfin : runFinal s (Except.ok t) (Except.error ()) =
        { status := Status.IDLE
          transcript := t
          summary := (resetState s).summary
          appError := processErrMsg summarizeFailMsg
          copiedTranscript := (resetState s).copiedTranscript
          copiedSummary := (resetState s).copiedSummary } := by
      simp [runFinal, runTrace, summarizeText, hpos, hne, List.getLastD_cons]
    rw [hfin]
    refine ⟨rfl, herr summarizeFailMsg, rfl, rfl, ?_, ?_⟩
    · intro hco
      exact Except.noConfusion hco
    · intro u hco
      injection hco with hco

/-- C1 witness: the amended theorem at a concrete failing run (transcription
fails from the initial state). -/
theorem c1_failure_handling_witness :
    (runFinal initialState (Except.error ()) (Except.ok "x")).status = Status.IDLE ∧
    (runFinal initialState (Except.error ()) (Except.ok "x")).appError ≠ "" ∧
    (runFinal initialState (Except.error ()) (Except.ok "x")).summary = "" ∧
    showsResults (runFinal initialState (Except.error ()) (Except.ok "x")) = false ∧
    (Except.error () = (Except.error () : TranscribeOutcome) →
      (runFinal initialState (Except.error ()) (Except.ok "x")).transcript = []) ∧
    (∀ t, (Except.error () : TranscribeOutcome) = Except.ok t →
      (runFinal initialState (Except.error ()) (Except.ok "x")).transcript = t) :=
  c1_failure_handling initialState (Except.error ()) (Except.ok "x") (Or.inl rfl)

end MeetingAssistant
